import Mathlib

/-!
A shallow embedding of `chunks.py` (class `RasterChunk` with methods
`read_chunk` and `write_chunk`) together with theorems about its windowing
arithmetic, its read/copy loop and its write path.

Machine integers do not arise: Python integers are unbounded, so all sizes and
offsets are modelled as `Int`.  NumPy arrays are modelled as dimension records
with a total valuation function; Python runtime exceptions (NameError,
IndexError, ValueError, AttributeError, IOError, and a failed GDAL window
read) are modelled by an explicit error type threaded through `Except`.
-/

namespace GdalChunks

/-- Python runtime failures that the embedded code can raise. -/
inductive PyError where
  | nameError
  | valueError
  | readError
  | ioError
  | attributeError
  | indexError (i : Nat)
  deriving DecidableEq, Repr

/-- Output of the per-axis window arithmetic of `read_chunk`
(lines 63-103 of `chunks.py`, one axis). -/
structure AxisPlan where
  read_off : Int
  read_size : Int
  dst_start : Int
  dst_end : Int
  deriving DecidableEq, Repr

/-- Per-axis window arithmetic of `read_chunk`, translated from
`chunks.py` lines 63-103 (shown there once for x and once for y with the same
structure): `size = cols + 2*buffer`, `off = start - buffer`, the four outputs
initialized to `(off, size, 0, size)`, then the two border-case checks applied
in order, each subtracting one `buffer` width from the read size. -/
def planAxis (start cols buffer src : Int) : AxisPlan :=
  let size := cols + 2 * buffer
  let off := start - buffer
  let p1 : AxisPlan := { read_off := off, read_size := size, dst_start := 0, dst_end := size }
  let p2 : AxisPlan :=
    if off < 0 then
      { p1 with read_off := 0, read_size := p1.read_size - buffer, dst_start := buffer }
    else p1
  let p3 : AxisPlan :=
    if off + size > src then
      { p2 with read_size := p2.read_size - buffer, dst_end := -buffer }
    else p2
  p3

/-- The source raster behind `gdal.Open`: extent, band count, driver long
name, and per-band metadata assumed uniform across bands (band 1 is the one
queried, lines 50-57).  `pix band row col` is the pixel value. -/
structure Source where
  rasterXSize : Int
  rasterYSize : Int
  rasterCount : Nat
  driverLongName : String
  data_type : Int
  nodata : Option Int
  pix : Nat → Int → Int → Int

/-- A 2-D array returned by `band.ReadAsArray`. -/
structure ReadArray where
  rows : Int
  cols : Int
  val : Int → Int → Int

/-- `band.ReadAsArray(x_off, y_off, x_size, y_size)` (line 118): succeeds with
the rectangular window when it lies inside the raster with positive sizes;
a window that is empty, negative-sized or out of range is a failed backend
read (GDAL raises / returns no array). -/
def readAsArray (src : Source) (band : Nat) (xOff yOff xSize ySize : Int) :
    Except PyError ReadArray :=
  if 0 ≤ xOff ∧ 0 ≤ yOff ∧ 0 < xSize ∧ 0 < ySize ∧
      xOff + xSize ≤ src.rasterXSize ∧ yOff + ySize ≤ src.rasterYSize then
    .ok { rows := ySize, cols := xSize, val := fun r c => src.pix band (yOff + r) (xOff + c) }
  else
    .error .readError

/-- A 3-D NumPy array: plane count, then rows × cols, with a valuation. -/
structure NpArray where
  planes : Nat
  rows : Int
  cols : Int
  val : Nat → Int → Int → Int

/-- `np.full((planes, rows, cols), fill)` (lines 108/110): NumPy raises
`ValueError` on a negative dimension. -/
def npFull (planes : Nat) (rows cols fill : Int) : Except PyError NpArray :=
  if 0 ≤ rows ∧ 0 ≤ cols then
    .ok { planes := planes, rows := rows, cols := cols, val := fun _ _ _ => fill }
  else
    .error .valueError

/-- Python slice-endpoint normalization for an axis of length `len`:
a negative index counts from the end, and the result is clamped to
`[0, len]`. -/
def sliceIdx (len i : Int) : Int :=
  if i < 0 then max 0 (len + i) else min i len

/-- The slice assignment
`arr[plane, ys:ye, xs:xe] = ra` (line 127): an `IndexError` when the plane
index is out of range, a `ValueError` when the normalized slice extent does
not match the shape of `ra`, and otherwise the functional update that writes
`ra` into the slice and leaves every other cell unchanged. -/
def sliceAssign (arr : NpArray) (plane : Nat) (ys ye xs xe : Int) (ra : ReadArray) :
    Except PyError NpArray :=
  if plane < arr.planes then
    let y0 := sliceIdx arr.rows ys
    let y1 := sliceIdx arr.rows ye
    let x0 := sliceIdx arr.cols xs
    let x1 := sliceIdx arr.cols xe
    if ra.rows = max 0 (y1 - y0) ∧ ra.cols = max 0 (x1 - x0) then
      .ok { arr with val := fun p r c =>
              if p = plane ∧ y0 ≤ r ∧ r < y1 ∧ x0 ≤ c ∧ c < x1 then
                ra.val (r - y0) (c - x0)
              else arr.val p r c }
    else
      .error .valueError
  else
    .error (.indexError plane)

/-- The band loop of `read_chunk` (lines 112-127), `for band in
range(1, bands+1)`.  `fuel` counts the remaining iterations, `band` is the
1-based loop counter.  Each iteration issues `ReadAsArray` with the four
`read_` values and then executes
`data_array[band, da_y_start:da_y_end, da_x_start:da_x_end] = read_array`.
`la` models the *local variable* `data_array`: it is bound (to the zero-filled
array) only on the no-nodata branch of lines 107-110; on the nodata branch the
allocation was assigned to the attribute `self.data_array` instead, so the
local name is unbound and the assignment raises `NameError`. -/
def bandLoop (src : Source) (rxo ryo rxs rys yds yde xds xde : Int) :
    Nat → Nat → Option NpArray → Except PyError (Option NpArray)
  | 0, _, la => .ok la
  | fuel + 1, band, la =>
    match readAsArray src band rxo ryo rxs rys with
    | .error e => .error e
    | .ok ra =>
      match la with
      | none => .error .nameError
      | some arr =>
        match sliceAssign arr band yds yde xds xde ra with
        | .error e => .error e
        | .ok arr2 => bandLoop src rxo ryo rxs rys yds yde xds xde fuel (band + 1) (some arr2)

/-- The mutable state of a `RasterChunk` instance.  `driver` holds the
driver's long name (the only part of the driver object the code consults);
`data_array` is the attribute `self.data_array`, absent until assigned.
The purely-copied georeference fields (`transform`, `projection`,
`cell_size`) are omitted: no claim concerns them. -/
structure RasterChunk where
  rows : Int
  cols : Int
  buffer : Int
  bands : Nat
  data_type : Option Int
  driver : Option String
  nodata : Option Int
  data_array : Option NpArray

/-- `RasterChunk.__init__` (lines 11-23): zero/None everything. -/
def RasterChunk.mkNew : RasterChunk :=
  { rows := 0, cols := 0, buffer := 0, bands := 0,
    data_type := none, driver := none, nodata := none, data_array := none }

/-- Result of one `read_chunk` call: the instance state when the call
returns or when the exception propagates, the outcome, and whether the
source file handle was released (`file_handle = None`, line 131). -/
structure ReadResult where
  chunk : RasterChunk
  outcome : Except PyError Unit
  handleReleased : Bool

/-- `read_chunk` (lines 27-131), translated step by step:
rows/cols from the truthiness tests on `read_y`/`read_x` (lines 37-45),
metadata capture (lines 48-57), the per-axis window arithmetic (lines 63-103)
via `planAxis`, the allocation of lines 105-110 — where the test
`if self.nodata or self.nodata == 0` is true exactly when a nodata value is
defined (it also catches `nodata == 0`), the nodata branch assigning the
array to `self.data_array` while the else branch binds the *local*
`data_array` — then the band loop, and finally the handle release, reached
only when no exception was raised. -/
def readChunk (c : RasterChunk) (src : Source)
    (xStart yStart readX readY buffer : Int) : ReadResult :=
  let rows := if readY ≠ 0 then readY else src.rasterYSize
  let cols := if readX ≠ 0 then readX else src.rasterXSize
  let c1 : RasterChunk :=
    { c with rows := rows, cols := cols,
             driver := some src.driverLongName,
             bands := src.rasterCount,
             nodata := src.nodata,
             data_type := some src.data_type }
  let px := planAxis xStart cols buffer src.rasterXSize
  let py := planAxis yStart rows buffer src.rasterYSize
  let xSize := cols + 2 * buffer
  let ySize := rows + 2 * buffer
  match src.nodata with
  | some nd =>
    match npFull src.rasterCount ySize xSize nd with
    | .error e => { chunk := c1, outcome := .error e, handleReleased := false }
    | .ok arr =>
      let c2 : RasterChunk := { c1 with data_array := some arr }
      match bandLoop src px.read_off py.read_off px.read_size py.read_size
          py.dst_start py.dst_end px.dst_start px.dst_end
          src.rasterCount 1 none with
      | .error e => { chunk := c2, outcome := .error e, handleReleased := false }
      | .ok _ => { chunk := c2, outcome := .ok (), handleReleased := true }
  | none =>
    match npFull src.rasterCount ySize xSize 0 with
    | .error e => { chunk := c1, outcome := .error e, handleReleased := false }
    | .ok arr =>
      match bandLoop src px.read_off py.read_off px.read_size py.read_size
          py.dst_start py.dst_end px.dst_start px.dst_end
          src.rasterCount 1 (some arr) with
      | .error e => { chunk := c1, outcome := .error e, handleReleased := false }
      | .ok _ => { chunk := c1, outcome := .ok (), handleReleased := true }

/-- `write_chunk` (lines 133-157).  The filesystem is the list of existing
paths.  Line 139 reads `self.driver.LongName`: on a never-read chunk the
driver is `None` and this raises `AttributeError`.  Lines 144-145 raise
`IOError` when `out_path` exists.  Line 147 then evaluates the arguments of
`driver.Create(...)`, among them `self.Datatype` — an attribute that is never
assigned anywhere in the class (the field set by `read_chunk` is
`self.data_type`), so every call raises `AttributeError` here, before the
output file is created and before any band write; the filesystem is returned
unchanged in every case. -/
def writeChunk (fs : List String) (c : RasterChunk) (outPath : String) :
    List String × Except PyError Unit :=
  match c.driver with
  | none => (fs, .error .attributeError)
  | some _longName =>
    if outPath ∈ fs then
      (fs, .error .ioError)
    else
      (fs, .error .attributeError)

/-- The 10×10 single-band source of the spec's concrete scenario:
`nodata = -9999`, pixel value `10*row + col`. -/
def src10 : Source :=
  { rasterXSize := 10, rasterYSize := 10, rasterCount := 1,
    driverLongName := "GeoTIFF", data_type := 6,
    nodata := some (-9999), pix := fun _ r c => 10 * r + c }

/-- A 10×10 single-band source with no nodata value defined. -/
def srcNoNodata : Source :=
  { rasterXSize := 10, rasterYSize := 10, rasterCount := 1,
    driverLongName := "GeoTIFF", data_type := 6,
    nodata := none, pix := fun _ r c => 10 * r + c }

/-- A 10×10 two-band source with no nodata value defined; pixel value
`100*band + 10*row + col`. -/
def srcTwoBand : Source :=
  { rasterXSize := 10, rasterYSize := 10, rasterCount := 2,
    driverLongName := "GeoTIFF", data_type := 6,
    nodata := none, pix := fun b r c => (b : Int) * 100 + 10 * r + c }

/-- A 4×4 single-band source with `nodata = 7`. -/
def srcSmall : Source :=
  { rasterXSize := 4, rasterYSize := 4, rasterCount := 1,
    driverLongName := "GeoTIFF", data_type := 6,
    nodata := some 7, pix := fun _ r c => 4 * r + c }

/-- A concrete chunk as a `read_chunk` call would have populated it. -/
def chunkA : RasterChunk :=
  { rows := 4, cols := 4, buffer := 2, bands := 1,
    data_type := some 6, driver := some "GeoTIFF",
    nodata := some (-9999), data_array := none }

/-- Claim C1: for every requested origin, core size, buffer and source
extent, the per-axis planner computes `off = start - buffer`,
`size = cols + 2*buffer`, initializes `(off, size, 0, size)`, subtracts one
buffer width per firing edge check (setting `read_off = 0, dst_start =
buffer` when `off < 0`, and `dst_end = -buffer` when `off + size > src`),
both checks may fire together, and no other output is changed. -/
theorem planAxis_matches_claimed_algorithm (start cols buffer src : Int) :
    planAxis start cols buffer src =
      { read_off := if start - buffer < 0 then 0 else start - buffer,
        read_size := cols + 2 * buffer -
          (if start - buffer < 0 then buffer else 0) -
          (if start - buffer + (cols + 2 * buffer) > src then buffer else 0),
        dst_start := if start - buffer < 0 then buffer else 0,
        dst_end := if start - buffer + (cols + 2 * buffer) > src then -buffer
                   else cols + 2 * buffer } := by
  simp only [planAxis]
  split_ifs with h1 h2 <;> simp_all [AxisPlan.mk.injEq]

/-- Claim C2, counterexample: in the spec's concrete scenario
(10×10 source, `x_start = 8`, `read_x = 4`, `buffer = 2`) the planner's
clamped read size is not the claimed 4: only one buffer width is trimmed,
giving 6. -/
theorem scenario_clamped_read_size_is_not_four :
    (planAxis 8 4 2 10).read_size ≠ 4 := by decide

/-- Claim C2, amended: the call plans the padded window `[6, 14)` on each
axis (`off = 6`, `size = 8`); the edge check trims one buffer width, giving
the read window `[6, 12)` (offset 6, size 6), which still exceeds the 10×10
source, so the backend band read fails and no populated 8×8 destination is
produced — the read aborts with the failed-read error. -/
theorem scenario_planner_and_read_outcome :
    planAxis 8 4 2 10 = { read_off := 6, read_size := 6, dst_start := 0, dst_end := -2 } ∧
      (readChunk RasterChunk.mkNew src10 8 8 4 4 2).outcome = .error .readError :=
  ⟨by decide, rfl⟩

/-- Claim C3, counterexample: for the requested window `x_start = 10`,
`cols = 1`, `buffer = 0` on a source with `src_cols = 10`, the planner's
read rectangle ends past the source (`read_off + read_size = 11 > 10`), so
the backend read would be issued out of bounds. -/
theorem planAxis_exceeds_source_at_right_edge :
    (planAxis 10 1 0 10).read_off + (planAxis 10 1 0 10).read_size > 10 := by decide

/-- Claim C3, amended: whenever the requested core window itself lies within
the source on an axis (`0 ≤ start` and `start + cols ≤ src`) and
`buffer ≥ 0`, the planner's read rectangle on that axis lies within the
source: `0 ≤ read_off` and `read_off + read_size ≤ src` (and symmetrically
for the other axis, which uses the same arithmetic). -/
theorem planAxis_read_within_source (start cols buffer src : Int)
    (_hb : 0 ≤ buffer) (hs : 0 ≤ start) (hw : start + cols ≤ src) :
    0 ≤ (planAxis start cols buffer src).read_off ∧
      (planAxis start cols buffer src).read_off +
        (planAxis start cols buffer src).read_size ≤ src := by
  simp only [planAxis]
  split_ifs with h1 h2 <;> simp_all <;> omega

/-- Witness for `planAxis_read_within_source` at
`start = 2, cols = 3, buffer = 1, src = 10`. -/
theorem planAxis_read_within_source_witness :
    (0 : Int) ≤ 1 ∧ (0 : Int) ≤ 2 ∧ (2 : Int) + 3 ≤ 10 ∧
      (0 ≤ (planAxis 2 3 1 10).read_off ∧
        (planAxis 2 3 1 10).read_off + (planAxis 2 3 1 10).read_size ≤ 10) :=
  ⟨by decide, by decide, by decide,
    planAxis_read_within_source 2 3 1 10 (by decide) (by decide) (by decide)⟩

/-- Claim C4: with `read_x = -2` on a 10×10 source the clamped read size is
`-2 ≤ 0`, yet `read_chunk` raises no explicit invalid-window error before
allocating: it proceeds to the destination allocation, which is where the
failure finally surfaces (NumPy's `ValueError` on the negative dimension).
No validation of the clamped sizes exists anywhere in the code. -/
theorem negative_clamped_size_reaches_allocation :
    (planAxis 0 (-2) 0 10).read_size ≤ 0 ∧
      (readChunk RasterChunk.mkNew srcNoNodata 0 0 (-2) 4 0).outcome = .error .valueError :=
  ⟨by decide, rfl⟩

/-- Claim C5: a full read of a 10×10 single-band source with no nodata value
raises `IndexError` at the first band (the copy targets plane 1 of a 1-plane
array) and leaves `self.data_array` unset — the zero-filled array was bound
only to the local name.  No successful read establishes the claimed shape
and initialization invariant. -/
theorem read_never_populates_chunk_data_array :
    (readChunk RasterChunk.mkNew srcNoNodata 0 0 0 0 0).outcome = .error (.indexError 1) ∧
      (readChunk RasterChunk.mkNew srcNoNodata 0 0 0 0 0).chunk.data_array = none :=
  ⟨rfl, rfl⟩

/-- Claim C6: on a two-band source the loop copies band 1 into plane 1 (not
plane 0) and then fails with `IndexError` when band 2's copy targets plane 2
of the 2-plane array.  The second conjunct evaluates exactly the band-1 copy
performed inside that run (plane index 1, full-array slices, band-1 pixel
values): afterwards plane 0 cell (5,5) still holds the fill 0 while plane 1
cell (5,5) holds band 1's pixel 155 — so plane 0 is never populated. -/
theorem band_loop_copies_into_wrong_plane :
    (readChunk RasterChunk.mkNew srcTwoBand 0 0 0 0 0).outcome = .error (.indexError 2) ∧
      ((sliceAssign { planes := 2, rows := 10, cols := 10, val := fun _ _ _ => 0 } 1 0 10 0 10
          { rows := 10, cols := 10, val := fun r c => 100 + 10 * r + c }).map
        (fun a => (a.val 0 5 5, a.val 1 5 5))) = .ok (0, 155) :=
  ⟨rfl, rfl⟩

/-- Claim C7: writing a populated chunk to a fresh path fails with
`AttributeError` while evaluating `self.Datatype` in the `Create` call —
before any output handle is created and before any band write — so no
core-cropped output of size `cols × rows × bands` is ever produced. -/
theorem write_fails_before_creating_output :
    writeChunk [] chunkA "out.tif" = ([], .error .attributeError) := rfl

/-- Claim C8: every `write_chunk` call fails and returns the filesystem
unchanged: no output file is created, and no file is ever deleted — the
claimed delete-partial-output recovery does not exist in the code (band
writes are never even reached). -/
theorem write_never_deletes_or_creates_files (fs : List String) (c : RasterChunk)
    (out : String) :
    (writeChunk fs c out).1 = fs ∧ ∃ e, (writeChunk fs c out).2 = .error e := by
  unfold writeChunk
  cases c.driver with
  | none => exact ⟨rfl, ⟨_, rfl⟩⟩
  | some ln =>
    dsimp only
    split_ifs <;> exact ⟨rfl, ⟨_, rfl⟩⟩

/-- Claim C9: on a 4×4 source with a nodata value, the read fails in the
band loop (the copy references the unbound local `data_array`) and the
source handle is not released on that exit path — `file_handle = None` runs
only after the loop completes normally. -/
theorem read_error_path_leaks_handle :
    (readChunk RasterChunk.mkNew srcSmall 0 0 0 0 0).outcome = .error .nameError ∧
      (readChunk RasterChunk.mkNew srcSmall 0 0 0 0 0).handleReleased = false :=
  ⟨rfl, rfl⟩

/-- Claim C10: `read_chunk` never assigns the `buffer` attribute, so it keeps
the value the instance had before the call, and the constructor sets it
to 0 — a chunk carries no record of its own padding width. -/
theorem readChunk_buffer_frame (c : RasterChunk) (src : Source)
    (xStart yStart readX readY buffer : Int) :
    (readChunk c src xStart yStart readX readY buffer).chunk.buffer = c.buffer ∧
      RasterChunk.mkNew.buffer = 0 := by
  refine ⟨?_, rfl⟩
  simp only [readChunk]
  repeat' split
  all_goals rfl

end GdalChunks
